import Mathlib

/-!
Verification of the system health monitor (`monitor.py`).

The monitor samples host metrics, compares them to configured thresholds,
prints a report, and optionally sends one alert email per monitoring
session.  Numbers that the Python program holds as `int`/`float` are
modelled as `ℕ`/`ℚ` (all values the program manipulates are decimal
literals or ratios of integers, so the rational model is exact on them).
Effectful steps (sampling, SMTP dispatch, console display) are modelled by
explicit inputs and recorded outcomes: whether the metrics provider threw
is an `Option` on the raw sample, and whether the SMTP transaction
succeeded is a boolean input to the cycle.
-/

set_option allowUnsafeReducibility true

attribute [local semireducible] Rat.mul Rat.add Rat.sub Rat.inv Rat.div Rat.ofScientific

/-- The `thresholds` section of the configuration (`config['thresholds']`
with keys `cpu`, `memory`, `disk`). -/
structure Thresholds where
  cpu : ℚ
  memory : ℚ
  disk : ℚ
deriving DecidableEq

/-- The `email` section of the configuration.  The YAML keys `from` / `to`
are Lean keywords, hence the `_addr` field names. -/
structure EmailConfig where
  enabled : Bool
  smtp_server : String
  port : ℕ
  from_addr : String
  to_addr : String
  username : String
  password : String
deriving DecidableEq

/-- The `logging` section of the configuration. -/
structure LoggingConfig where
  level : String
  file : String
deriving DecidableEq

/-- The resolved configuration dictionary used by `SystemMonitor`. -/
structure Config where
  thresholds : Thresholds
  check_interval : ℕ
  email : EmailConfig
  logging : LoggingConfig
deriving DecidableEq

/-- `SystemMonitor._get_default_config` (monitor.py lines 59-81), the
configuration used when the file is missing or fails to parse. -/
def default_config : Config :=
  { thresholds := { cpu := 80, memory := 85, disk := 90 }
  , check_interval := 60
  , email :=
      { enabled := false
      , smtp_server := "smtp.gmail.com"
      , port := 587
      , from_addr := "monitoring@example.com"
      , to_addr := "admin@example.com"
      , username := ""
      , password := "" }
  , logging := { level := "INFO", file := "system_monitor.log" } }

/-- Outcome of opening and parsing the YAML configuration file:
the file was absent (`FileNotFoundError`), it failed to parse
(`yaml.YAMLError`), or it parsed to a configuration. -/
inductive ConfigFile where
  | missing : ConfigFile
  | malformed : ConfigFile
  | parsed : Config → ConfigFile
deriving DecidableEq

/-- `SystemMonitor._load_config` (monitor.py lines 46-57): return the parsed
configuration, falling back to `default_config` on a missing file or a
parse error (both exception handlers print a notice and return the
defaults). -/
def load_config : ConfigFile → Config
  | .missing => default_config
  | .malformed => default_config
  | .parsed c => c

/-- The `cpu` sub-dictionary of a stats snapshot. -/
structure CpuStats where
  percent : ℚ
  count_logical : ℕ
  count_physical : ℕ
  load_avg : ℚ
deriving DecidableEq

/-- The `memory` sub-dictionary of a stats snapshot (GB values are the
rounded quotients computed by `get_system_stats`). -/
structure MemoryStats where
  percent : ℚ
  total_gb : ℚ
  used_gb : ℚ
  available_gb : ℚ
deriving DecidableEq

/-- The `disk` sub-dictionary of a stats snapshot. -/
structure DiskStats where
  percent : ℚ
  total_gb : ℚ
  used_gb : ℚ
  free_gb : ℚ
deriving DecidableEq

/-- The `network` sub-dictionary of a stats snapshot (cumulative
`psutil.net_io_counters` values). -/
structure NetworkStats where
  bytes_sent : ℕ
  bytes_recv : ℕ
  packets_sent : ℕ
  packets_recv : ℕ
deriving DecidableEq

/-- The `system` sub-dictionary of a stats snapshot. -/
structure SystemStats where
  uptime_days : ℕ
  uptime_hours : ℕ
  process_count : ℕ
  boot_time : String
deriving DecidableEq

/-- The stats dictionary built by `get_system_stats` (monitor.py
lines 139-171). -/
structure Stats where
  timestamp : String
  cpu : CpuStats
  memory : MemoryStats
  disk : DiskStats
  network : NetworkStats
  system : SystemStats
deriving DecidableEq

/-- Raw values read from the OS by one sampling pass (the `psutil` calls in
`get_system_stats`).  `elapsed_seconds` is `datetime.now() - boot_time` in
whole seconds; byte quantities are in bytes. -/
structure RawSample where
  cpu_percent : ℚ
  cpu_count_logical : ℕ
  cpu_count_physical : ℕ
  memory_percent : ℚ
  memory_total : ℕ
  memory_used : ℕ
  memory_available : ℕ
  disk_total : ℕ
  disk_used : ℕ
  disk_free : ℕ
  load_avg : ℚ
  net_bytes_sent : ℕ
  net_bytes_recv : ℕ
  net_packets_sent : ℕ
  net_packets_recv : ℕ
  elapsed_seconds : ℕ
  process_count : ℕ
  timestamp : String
  boot_time_str : String
deriving DecidableEq

/-- Python's `round` to an integer: round half to even. -/
def roundHalfEven (q : ℚ) : ℤ :=
  let f := q.floor
  let frac := q - (f : ℚ)
  if frac < 1/2 then f
  else if 1/2 < frac then f + 1
  else if f % 2 = 0 then f else f + 1

/-- Python's `round(q, 2)`. -/
def round2 (q : ℚ) : ℚ := (roundHalfEven (q * 100) : ℚ) / 100

/-- The `round(x / (1024**3), 2)` conversion of a byte count to GB used
throughout `get_system_stats`. -/
def gbOfBytes (bytes : ℕ) : ℚ := round2 ((bytes : ℚ) / 1073741824)

/-- `SystemMonitor.get_system_stats` (monitor.py lines 96-177), the pure
part: building the stats dictionary from one raw sample.  `uptime_days` and
`uptime_hours` follow `timedelta` semantics: `days` is the whole number of
days and `seconds` the remainder in `[0, 86400)`, of which the code takes
`uptime.seconds // 3600`. -/
def get_system_stats (r : RawSample) : Stats :=
  { timestamp := r.timestamp
  , cpu :=
      { percent := r.cpu_percent
      , count_logical := r.cpu_count_logical
      , count_physical := r.cpu_count_physical
      , load_avg := round2 r.load_avg }
  , memory :=
      { percent := r.memory_percent
      , total_gb := gbOfBytes r.memory_total
      , used_gb := gbOfBytes r.memory_used
      , available_gb := gbOfBytes r.memory_available }
  , disk :=
      { percent := round2 (((r.disk_used : ℚ) / (r.disk_total : ℚ)) * 100)
      , total_gb := gbOfBytes r.disk_total
      , used_gb := gbOfBytes r.disk_used
      , free_gb := gbOfBytes r.disk_free }
  , network :=
      { bytes_sent := r.net_bytes_sent
      , bytes_recv := r.net_bytes_recv
      , packets_sent := r.net_packets_sent
      , packets_recv := r.net_packets_recv }
  , system :=
      { uptime_days := r.elapsed_seconds / 86400
      , uptime_hours := r.elapsed_seconds % 86400 / 3600
      , process_count := r.process_count
      , boot_time := r.boot_time_str } }

/-- Decimal digits of the fraction `rem / d` (with `rem < d`), most
significant first, stopping when the remainder reaches zero; `fuel` bounds
the expansion. -/
def fracDecString (d : ℕ) : ℕ → ℕ → String
  | 0, _ => ""
  | fuel + 1, rem =>
    if rem = 0 then ""
    else toString (rem * 10 / d) ++ fracDecString d fuel (rem * 10 % d)

/-- Python's `str` of a numeric configuration value, on the rational model:
an integer prints without a decimal point, a non-integer by its decimal
expansion (exact for the terminating decimals a YAML file holds). -/
def pyNumStr (q : ℚ) : String :=
  if q.den = 1 then toString q.num
  else
    (if q.num < 0 then "-" else "") ++
      toString (q.num.natAbs / q.den) ++ "." ++
      fracDecString q.den 1200 (q.num.natAbs % q.den)

/-- Python's `f"{q:.1f}"`: fixed-point with one decimal digit, rounding
half to even. -/
def fmtFixed1 (q : ℚ) : String :=
  let t := roundHalfEven (q * 10)
  if t < 0 then
    "-" ++ toString ((-t).toNat / 10) ++ "." ++ toString ((-t).toNat % 10)
  else
    toString (t.toNat / 10) ++ "." ++ toString (t.toNat % 10)

/-- The CPU alert message of `check_thresholds` (monitor.py lines 193-197). -/
def cpuMsg (c : Config) (st : Stats) : String :=
  "CPU usage: " ++ fmtFixed1 st.cpu.percent ++ "% " ++
    "(threshold: " ++ pyNumStr c.thresholds.cpu ++ "%)"

/-- The memory alert message of `check_thresholds` (monitor.py
lines 200-205). -/
def memMsg (c : Config) (st : Stats) : String :=
  "Memory usage: " ++ fmtFixed1 st.memory.percent ++ "% " ++
    "(threshold: " ++ pyNumStr c.thresholds.memory ++ "%) - " ++
    fmtFixed1 st.memory.used_gb ++ "GB used"

/-- The disk alert message of `check_thresholds` (monitor.py
lines 208-213). -/
def diskMsg (c : Config) (st : Stats) : String :=
  "Disk usage: " ++ fmtFixed1 st.disk.percent ++ "% " ++
    "(threshold: " ++ pyNumStr c.thresholds.disk ++ "%) - " ++
    fmtFixed1 st.disk.used_gb ++ "GB used"

/-- Label of the metric a `check_thresholds` branch guards. -/
inductive Metric where
  | cpu : Metric
  | memory : Metric
  | disk : Metric
deriving DecidableEq, BEq

/-- The percent a snapshot reports for a metric. -/
def observedPercent (st : Stats) : Metric → ℚ
  | .cpu => st.cpu.percent
  | .memory => st.memory.percent
  | .disk => st.disk.percent

/-- The configured threshold for a metric. -/
def thresholdOf (c : Config) : Metric → ℚ
  | .cpu => c.thresholds.cpu
  | .memory => c.thresholds.memory
  | .disk => c.thresholds.disk

/-- `SystemMonitor.check_thresholds` (monitor.py lines 179-215) with each
appended message paired with the metric of the guard that produced it: the
CPU check runs first, then memory, then disk, each appending one message
exactly when `percent > threshold` (strict). -/
def check_thresholds_tagged (c : Config) (st : Stats) : List (Metric × String) :=
  (if st.cpu.percent > c.thresholds.cpu then [(Metric.cpu, cpuMsg c st)] else []) ++
    (if st.memory.percent > c.thresholds.memory then [(Metric.memory, memMsg c st)] else []) ++
    (if st.disk.percent > c.thresholds.disk then [(Metric.disk, diskMsg c st)] else [])

/-- `SystemMonitor.check_thresholds`: the alert-message list the Python
method returns. -/
def check_thresholds (c : Config) (st : Stats) : List String :=
  (check_thresholds_tagged c st).map Prod.snd

/-- `SystemMonitor.send_alert` (monitor.py lines 217-280), reduced to its
observable effect on the session.  Inputs: the configuration, the current
`self.alert_sent` flag, the alert list, and whether the SMTP transaction
would succeed.  Output `(attempted, sent, alert_sent)`: whether control
passed the two early returns and an SMTP dispatch was attempted, whether
the email went out, and the flag afterwards.  The Python code sets
`self.alert_sent = True` only after `server.quit()` succeeds; the
`except` handler merely logs, leaving the flag untouched. -/
def send_alert (c : Config) (alert_sent : Bool) (alerts : List String)
    (smtpOk : Bool) : Bool × Bool × Bool :=
  if alerts.isEmpty || !c.email.enabled then (false, false, alert_sent)
  else if alert_sent then (false, false, alert_sent)
  else if smtpOk then (true, true, true)
  else (true, false, alert_sent)

/-- Observable outcome of one `run_once` call: the returned stats (`none`
models the empty dict), the alert list computed, whether `display_stats`
ran, whether `send_alert` attempted a dispatch, whether an email was sent,
and the session flag afterwards. -/
structure CycleResult where
  stats : Option Stats
  alerts : List String
  displayed : Bool
  attempted : Bool
  sent : Bool
  alert_sent : Bool
deriving DecidableEq

/-- `SystemMonitor.run_once` (monitor.py lines 346-364).  `sample` is
`none` when the metrics provider threw, in which case `get_system_stats`
logged the error and returned `{}` and `run_once` returns `{}` at once;
otherwise thresholds are checked, stats displayed, and `send_alert` is
called when the alert list is non-empty. -/
def run_once (c : Config) (alert_sent : Bool) (sample : Option RawSample)
    (smtpOk : Bool) : CycleResult :=
  match sample.map get_system_stats with
  | none => ⟨none, [], false, false, false, alert_sent⟩
  | some st =>
    let alerts := check_thresholds c st
    if alerts.isEmpty then ⟨some st, alerts, true, false, false, alert_sent⟩
    else
      let r := send_alert c alert_sent alerts smtpOk
      ⟨some st, alerts, true, r.1, r.2.1, r.2.2⟩

/-- `SystemMonitor.run_monitoring` (monitor.py lines 366-393) over a finite
schedule of cycles.  Each schedule entry supplies the cycle's sampling
outcome (`none` when the provider threw) and whether SMTP would succeed.
`get_system_stats` catches every exception internally, so a sampling
failure cannot escape `run_once`: the loop body runs for every entry,
threading `alert_sent` forward.  Returns the final flag and the per-cycle
outcomes. -/
def run_monitoring (c : Config) (alert_sent : Bool) :
    List (Option RawSample × Bool) → Bool × List CycleResult
  | [] => (alert_sent, [])
  | (sample, smtpOk) :: rest =>
    ((run_monitoring c (run_once c alert_sent sample smtpOk).alert_sent rest).1,
      run_once c alert_sent sample smtpOk ::
        (run_monitoring c (run_once c alert_sent sample smtpOk).alert_sent rest).2)

/-- A JSON value as `json.dump` writes it and `json.load` reads it back:
strings, integers, floats (exact rationals in this model), and objects
with ordered keys. -/
inductive JsonDoc where
  | str : String → JsonDoc
  | int : ℤ → JsonDoc
  | num : ℚ → JsonDoc
  | obj : List (String × JsonDoc) → JsonDoc

/-- `SystemMonitor.save_stats_json` (monitor.py lines 328-344): the
structured document `json.dump(stats, f, indent=2)` persists, mirroring
the stats dictionary field by field (full precision, not the rounded
display strings). -/
def stats_to_json (s : Stats) : JsonDoc :=
  .obj
    [ ("timestamp", .str s.timestamp)
    , ("cpu", .obj
        [ ("percent", .num s.cpu.percent)
        , ("count_logical", .int s.cpu.count_logical)
        , ("count_physical", .int s.cpu.count_physical)
        , ("load_avg", .num s.cpu.load_avg) ])
    , ("memory", .obj
        [ ("percent", .num s.memory.percent)
        , ("total_gb", .num s.memory.total_gb)
        , ("used_gb", .num s.memory.used_gb)
        , ("available_gb", .num s.memory.available_gb) ])
    , ("disk", .obj
        [ ("percent", .num s.disk.percent)
        , ("total_gb", .num s.disk.total_gb)
        , ("used_gb", .num s.disk.used_gb)
        , ("free_gb", .num s.disk.free_gb) ])
    , ("network", .obj
        [ ("bytes_sent", .int s.network.bytes_sent)
        , ("bytes_recv", .int s.network.bytes_recv)
        , ("packets_sent", .int s.network.packets_sent)
        , ("packets_recv", .int s.network.packets_recv) ])
    , ("system", .obj
        [ ("uptime_days", .int s.system.uptime_days)
        , ("uptime_hours", .int s.system.uptime_hours)
        , ("process_count", .int s.system.process_count)
        , ("boot_time", .str s.system.boot_time) ]) ]

/-- Re-parsing a persisted stats document back into the stats record
(`json.load` on the file `save_stats_json` wrote); `none` on any document
not of the persisted shape. -/
def parse_stats : JsonDoc → Option Stats
  | .obj
      [ ("timestamp", .str ts)
      , ("cpu", .obj
          [ ("percent", .num cp)
          , ("count_logical", .int cl)
          , ("count_physical", .int cph)
          , ("load_avg", .num la) ])
      , ("memory", .obj
          [ ("percent", .num mp)
          , ("total_gb", .num mt)
          , ("used_gb", .num mu)
          , ("available_gb", .num ma) ])
      , ("disk", .obj
          [ ("percent", .num dp)
          , ("total_gb", .num dt)
          , ("used_gb", .num du)
          , ("free_gb", .num df) ])
      , ("network", .obj
          [ ("bytes_sent", .int nbs)
          , ("bytes_recv", .int nbr)
          , ("packets_sent", .int nps)
          , ("packets_recv", .int npr) ])
      , ("system", .obj
          [ ("uptime_days", .int ud)
          , ("uptime_hours", .int uh)
          , ("process_count", .int pc)
          , ("boot_time", .str bt) ]) ] =>
    some
      { timestamp := ts
      , cpu := ⟨cp, cl.toNat, cph.toNat, la⟩
      , memory := ⟨mp, mt, mu, ma⟩
      , disk := ⟨dp, dt, du, df⟩
      , network := ⟨nbs.toNat, nbr.toNat, nps.toNat, npr.toNat⟩
      , system := ⟨ud.toNat, uh.toNat, pc.toNat, bt⟩ }
  | _ => none

/-- A concrete snapshot with the given CPU, memory and disk percentages
(the remaining fields are fixed plausible values), used as test input. -/
def mkStats (cpu mem disk : ℚ) : Stats :=
  { timestamp := "2026-01-01 00:00:00"
  , cpu := ⟨cpu, 8, 4, 1/2⟩
  , memory := ⟨mem, 16, 8, 8⟩
  , disk := ⟨disk, 100, 45, 55⟩
  , network := ⟨0, 0, 0, 0⟩
  , system := ⟨1, 2, 100, "2025-12-31 00:00:00"⟩ }

/-- A concrete raw sample whose snapshot reports CPU 92.3%, memory 60.0%,
disk 45.0%, used as test input. -/
def rawHigh : RawSample :=
  { cpu_percent := 923/10
  , cpu_count_logical := 8
  , cpu_count_physical := 4
  , memory_percent := 60
  , memory_total := 1073741824
  , memory_used := 536870912
  , memory_available := 536870912
  , disk_total := 100
  , disk_used := 45
  , disk_free := 55
  , load_avg := 1/2
  , net_bytes_sent := 0
  , net_bytes_recv := 0
  , net_packets_sent := 0
  , net_packets_recv := 0
  , elapsed_seconds := 93784
  , process_count := 123
  , timestamp := "2026-01-01 00:00:00"
  , boot_time_str := "2025-12-31 00:00:00" }

/-- The default configuration with email notifications switched on, used
as test input. -/
def cfgEnabled : Config :=
  { default_config with
      email := { default_config.email with enabled := true } }

theorem check_thresholds_eq (c : Config) (st : Stats) :
    check_thresholds c st =
      (if st.cpu.percent > c.thresholds.cpu then [cpuMsg c st] else []) ++
        (if st.memory.percent > c.thresholds.memory then [memMsg c st] else []) ++
        (if st.disk.percent > c.thresholds.disk then [diskMsg c st] else []) := by
  unfold check_thresholds check_thresholds_tagged
  split_ifs <;> simp

theorem send_alert_of_flag_true (c : Config) (alerts : List String) (ok : Bool) :
    send_alert c true alerts ok = (false, false, true) := by
  unfold send_alert
  split_ifs <;> simp_all

theorem run_once_of_flag_true (c : Config) (sample : Option RawSample) (ok : Bool) :
    (run_once c true sample ok).attempted = false ∧
      (run_once c true sample ok).sent = false ∧
      (run_once c true sample ok).alert_sent = true := by
  unfold run_once
  cases sample <;> simp [send_alert_of_flag_true]

theorem run_once_flag_of_sent (c : Config) (s : Bool) (sample : Option RawSample)
    (ok : Bool) :
    (run_once c s sample ok).sent = true → (run_once c s sample ok).alert_sent = true := by
  unfold run_once send_alert
  cases sample <;> simp <;> split_ifs <;> simp

theorem run_once_flag_of_not_sent (c : Config) (s : Bool) (sample : Option RawSample)
    (ok : Bool) :
    (run_once c s sample ok).sent = false → (run_once c s sample ok).alert_sent = s := by
  unfold run_once send_alert
  cases sample <;> simp <;> split_ifs <;> simp_all

theorem run_monitoring_of_flag_true (c : Config) :
    ∀ inputs : List (Option RawSample × Bool),
      (run_monitoring c true inputs).1 = true ∧
        ∀ r ∈ (run_monitoring c true inputs).2, r.attempted = false ∧ r.sent = false := by
  intro inputs
  induction inputs with
  | nil => simp [run_monitoring]
  | cons hd tl ih =>
    obtain ⟨sample, ok⟩ := hd
    have h := run_once_of_flag_true c sample ok
    unfold run_monitoring
    rw [h.2.2]
    refine ⟨ih.1, ?_⟩
    intro r hr
    rcases List.mem_cons.mp hr with h' | h'
    · exact h' ▸ ⟨h.1, h.2.1⟩
    · exact ih.2 r h'

theorem run_monitoring_sent_count (c : Config) :
    ∀ (inputs : List (Option RawSample × Bool)) (s : Bool),
      (run_monitoring c s inputs).2.countP (fun r => r.sent) ≤ if s then 0 else 1 := by
  intro inputs
  induction inputs with
  | nil => intro s; simp [run_monitoring]
  | cons hd tl ih =>
    intro s
    obtain ⟨sample, ok⟩ := hd
    unfold run_monitoring
    simp only [List.countP_cons]
    by_cases hsent : (run_once c s sample ok).sent = true
    · have hflag := run_once_flag_of_sent c s sample ok hsent
      have hs : s = false := by
        cases s
        · rfl
        · have h2 := (run_once_of_flag_true c sample ok).2.1
          simp [h2] at hsent
      subst hs
      rw [hflag, hsent]
      have hrec := ih true
      simp only [if_pos] at hrec
      have hz : (run_monitoring c true tl).2.countP (fun r => r.sent) = 0 :=
        Nat.le_zero.mp hrec
      simp [hz]
    · rw [Bool.not_eq_true] at hsent
      have hflag := run_once_flag_of_not_sent c s sample ok hsent
      rw [hflag, hsent]
      simpa using ih s

theorem run_monitoring_length (c : Config) (s : Bool) :
    ∀ inputs : List (Option RawSample × Bool),
      (run_monitoring c s inputs).2.length = inputs.length := by
  intro inputs
  induction inputs generalizing s with
  | nil => simp [run_monitoring]
  | cons hd tl ih =>
    obtain ⟨sample, ok⟩ := hd
    unfold run_monitoring
    simp [ih]

/-- C1 counterexample: with email enabled, a persistently violating snapshot
and an SMTP transport that fails on both cycles, the gate in `send_alert` is
passed (a dispatch is attempted) on both cycles of one continuous run, and
`alert_sent` is still `false` at the end: a failed dispatch does not set the
session flag, so the gate does not pass at most once per run. -/
theorem alert_gate_passes_twice_cex :
    (run_monitoring cfgEnabled false
        [(some rawHigh, false), (some rawHigh, false)]).2.countP
        (fun r => r.attempted) = 2 ∧
      (run_monitoring cfgEnabled false
        [(some rawHigh, false), (some rawHigh, false)]).1 = false := by
  decide

/-- C1 (amended): `alert_sent` is set by a successful dispatch only, so each
continuous run sends at most one alert email; and once the flag is `true` it
is never reset, so no later cycle of the run attempts a dispatch.  A failed
dispatch, however, leaves the flag `false` and the gate may pass again on a
later cycle. -/
theorem alert_at_most_one_send (c : Config) (s : Bool)
    (inputs : List (Option RawSample × Bool)) :
    (run_monitoring c s inputs).2.countP (fun r => r.sent) ≤ 1 ∧
      (run_monitoring c true inputs).1 = true ∧
      (run_monitoring c true inputs).2.countP (fun r => r.attempted) = 0 := by
  refine ⟨?_, (run_monitoring_of_flag_true c inputs).1, ?_⟩
  · have h := run_monitoring_sent_count c inputs s
    cases s
    · simpa using h
    · simp only [if_pos] at h
      omega
  · exact List.countP_eq_zero.mpr fun r hr => by
      simp [((run_monitoring_of_flag_true c inputs).2 r hr).1]

/-- C2: a dispatch is attempted in a cycle exactly when the violation list is
non-empty, email notifications are enabled, and the session flag is still
`false`; in particular no dispatch is ever attempted with `email.enabled =
false`. -/
theorem notify_gate_iff (c : Config) (s : Bool) (raw : RawSample) (ok : Bool) :
    (run_once c s (some raw) ok).attempted = true ↔
      (check_thresholds c (get_system_stats raw) ≠ [] ∧
        c.email.enabled = true ∧ s = false) := by
  unfold run_once send_alert
  simp only [Option.map_some']
  rcases hl : check_thresholds c (get_system_stats raw) with _ | ⟨a, l⟩ <;>
    cases hen : c.email.enabled <;> cases s <;> cases ok <;>
      simp_all

/-- C3 counterexample: a cycle whose metric sampling fails (the provider
throws, `get_system_stats` returns the empty dict) does not end continuous
monitoring: the next scheduled cycle still runs, samples, and displays its
stats. -/
theorem sampling_failure_cex :
    (run_monitoring cfgEnabled false [(none, true), (some rawHigh, true)]).2.map
        (fun r => r.displayed) = [false, true] ∧
      (run_monitoring cfgEnabled false
        [(none, true), (some rawHigh, true)]).2.length = 2 := by
  decide

/-- C3 (amended): when metric sampling fails, the error is caught inside
`get_system_stats`, the snapshot is discarded for that cycle (no thresholds
checked, nothing displayed, no dispatch, flag unchanged), and the loop
continues with the remaining cycles exactly as if the failed cycle had not
been scheduled — the failure is not fatal to continuous mode. -/
theorem sampling_failure_loop_continues (c : Config) (s : Bool) (ok : Bool)
    (rest : List (Option RawSample × Bool)) :
    run_monitoring c s ((none, ok) :: rest) =
      ((run_monitoring c s rest).1,
        ⟨none, [], false, false, false, s⟩ :: (run_monitoring c s rest).2) :=
  rfl

/-- C4: for every snapshot and every threshold configuration, the violation
list is ordered CPU first, then Memory, then Disk: the metrics tagged on the
evaluator output always form a sublist of `[cpu, memory, disk]`. -/
theorem violations_ordered (c : Config) (st : Stats) :
    ((check_thresholds_tagged c st).map Prod.fst).Sublist
      [Metric.cpu, Metric.memory, Metric.disk] := by
  unfold check_thresholds_tagged
  split_ifs <;> simp

/-- C5: threshold comparison is strict greater-than for every metric — a
metric appears in the evaluator output exactly when its observed percent
strictly exceeds its threshold; concretely, threshold 80 with observed 80.0
yields no CPU violation while observed 80.1 yields one. -/
theorem strict_threshold_iff :
    (∀ (c : Config) (st : Stats) (m : Metric),
        m ∈ (check_thresholds_tagged c st).map Prod.fst ↔
          thresholdOf c m < observedPercent st m) ∧
      (check_thresholds_tagged default_config (mkStats 80 60 45)).map Prod.fst =
        [] ∧
      (check_thresholds_tagged default_config
          (mkStats (80.1 : ℚ) 60 45)).map Prod.fst = [Metric.cpu] := by
  refine ⟨?_, by decide, by decide⟩
  intro c st m
  cases m <;>
    (unfold check_thresholds_tagged observedPercent thresholdOf
     split_ifs <;> simp_all)

/-- C6: the evaluator output contains exactly one CPU violation when
`cpu.percent` exceeds the CPU threshold and none otherwise; and on the
concrete scenario (thresholds 80/85/90, snapshot 92.3/60.0/45.0) the output
is exactly `["CPU usage: 92.3% (threshold: 80%)"]`. -/
theorem cpu_violation_count :
    (∀ (c : Config) (st : Stats),
        (check_thresholds_tagged c st).countP (fun p => decide (p.1 = Metric.cpu)) =
          if st.cpu.percent > c.thresholds.cpu then 1 else 0) ∧
      check_thresholds default_config (mkStats (92.3 : ℚ) 60 45) =
        ["CPU usage: 92.3% (threshold: 80%)"] := by
  refine ⟨?_, by decide⟩
  intro c st
  unfold check_thresholds_tagged
  split_ifs <;> simp [List.countP_append, List.countP_cons]

/-- C7: configuration loading falls back to the documented defaults on a
missing file and on a parse error (never a hard startup failure), and the
default thresholds are CPU 80, memory 85, disk 90. -/
theorem config_fallback_defaults :
    load_config ConfigFile.missing = default_config ∧
      load_config ConfigFile.malformed = default_config ∧
      default_config.thresholds = ⟨80, 85, 90⟩ :=
  ⟨rfl, rfl, rfl⟩

/-- C8: serializing a snapshot to the persisted JSON document and re-parsing
that document yields the identical snapshot, every stored field preserved. -/
theorem stats_json_roundtrip (s : Stats) :
    parse_stats (stats_to_json s) = some s :=
  rfl

/-- C9: in every snapshot built by `get_system_stats`, `uptime_hours` is the
hour remainder after subtracting the whole uptime days — a value in 0–23 —
not the total elapsed hours since boot. -/
theorem uptime_hours_remainder (r : RawSample) :
    (get_system_stats r).system.uptime_hours =
        r.elapsed_seconds / 3600 - 24 * (get_system_stats r).system.uptime_days ∧
      (get_system_stats r).system.uptime_hours ≤ 23 := by
  have h1 : (get_system_stats r).system.uptime_hours =
      r.elapsed_seconds % 86400 / 3600 := rfl
  have h2 : (get_system_stats r).system.uptime_days =
      r.elapsed_seconds / 86400 := rfl
  rw [h1, h2]
  constructor
  · omega
  · omega

/-- C10: when sampling fails and `get_system_stats` returns the empty dict,
`run_once` returns the empty dict at once — no thresholds evaluated, nothing
displayed, no dispatch attempted, and `alert_sent` unchanged. -/
theorem run_once_sampling_failure (c : Config) (s : Bool) (ok : Bool) :
    run_once c s none ok = ⟨none, [], false, false, false, s⟩ :=
  rfl

